import Mathlib

/-!
Verification of the sqlline monitoring-check scripts
(`src/bin/query-safety-check.py` and `src/bin/sqlline-service-check.py`).

The scripts are shallowly embedded: Python strings become `String` /
`List Char`, the regex operations of the output parser are modelled by
explicit substring functions, the numeric values arising from Python
`float` on parsed decimal literals are modelled exactly by unnormalized
fractions (`Frac`, interpreted into `ℚ` by `Frac.toRat`), and the
process-level effects (`sys.exit`, unhandled exceptions, external
subprocess calls) become explicit result and trace values.

Numeric model: a `Frac` codes the decimal literal a timing line
carries; the program stores `float` of that literal — a binary64 value
determined by the literal — and rounds each `+=`.  No IEEE-754 rounding
is modelled here, so no theorem below equates the program's accumulated
float with an exact rational sum on general inputs; value-level facts
are proved only where the two semantics agree exactly for structural
reasons: concrete dyadic traces, accumulators that are never updated or
only ever have literal-zero values (exact `±0.0`) added, and the
`perfstat == 0` / nonzero branch structure itself.
-/

namespace SqllineCheck

/-- An unnormalized fraction: the exact value of a Python float produced
by parsing a finite decimal literal, and of sums of such values.  Kept
unnormalized so that all arithmetic is plain `Int`/`Nat` arithmetic. -/
structure Frac where
  num : ℤ
  den : ℕ
deriving DecidableEq

/-- The rational value of a `Frac`. -/
def Frac.toRat (f : Frac) : ℚ := (f.num : ℚ) / (f.den : ℚ)

/-- Exact addition (`a/b + c/d = (a*d + c*b)/(b*d)`), modelling `+=` on
the Python float accumulator. -/
def Frac.add (a b : Frac) : Frac := ⟨a.num * b.den + b.num * a.den, a.den * b.den⟩

/-- The initial accumulator `perfstat = 0`. -/
def Frac.zero : Frac := ⟨0, 1⟩

/-- Negation, for a leading `-` sign in a float literal. -/
def Frac.neg (f : Frac) : Frac := ⟨-f.num, f.den⟩

/-- Multiply by `10^e` or `10^(-e)`, for the exponent part of a float
literal (`true` means a negative exponent). -/
def Frac.scale10 (f : Frac) : Bool × Nat → Frac
  | (false, e) => ⟨f.num * (10 ^ e : ℕ), f.den⟩
  | (true, e) => ⟨f.num, f.den * 10 ^ e⟩

/-- `f == 0` on the Python side: with a positive denominator (an
invariant of everything the scripts compute) this is exactly "the value
is zero". -/
def Frac.isZero (f : Frac) : Bool := f.num == 0

/-- Exact comparison of fraction values with positive denominators. -/
def Frac.ltB (a b : Frac) : Bool := decide (a.num * (b.den : ℤ) < b.num * (a.den : ℤ))

/-- Python truthiness of an optional string argument (`argparse` yields
`None` for an absent flag; an empty string is also falsy). -/
def truthy : Option String → Bool
  | none => false
  | some s => s != ""

/-- `leadsWith pat l` holds when `pat` is an initial segment of `l`. -/
def leadsWith : List Char → List Char → Bool
  | [], _ => true
  | _ :: _, [] => false
  | p :: ps, c :: cs => p == c && leadsWith ps cs

/-- `hasSub pat l`: `pat` occurs as a contiguous substring of `l`.
Models Python `pat in line` and `re.search('.*pat.*', line)`. -/
def hasSub (pat : List Char) : List Char → Bool
  | [] => leadsWith pat []
  | l@(_ :: t) => leadsWith pat l || hasSub pat t

/-- The suffix of `l` that follows the LAST occurrence of `pat`
(`none` when `pat` does not occur).  Models the effect of the greedy
`re.sub('.*pat', '', line)` used at lines 91/93/110/112 of the scripts. -/
def afterLast (pat : List Char) : List Char → Option (List Char)
  | [] => if leadsWith pat [] then some [] else none
  | l@(_ :: t) =>
    match afterLast pat t with
    | some s => some s
    | none => if leadsWith pat l then some (l.drop pat.length) else none

/-- Python `str.split('\n')`: `"" .split` gives `[""]`, separators at the
ends give empty pieces. -/
def splitNL : List Char → List (List Char)
  | [] => [[]]
  | c :: rest =>
    match splitNL rest with
    | [] => [[]]
    | l :: ls => if c == '\n' then [] :: l :: ls else (c :: l) :: ls

/-- The character set of Python `str.strip(') seconds')`. -/
def stripSet : List Char := [')', ' ', 's', 'e', 'c', 'o', 'n', 'd']

/-- Python `s.strip(') seconds')`: remove characters of `stripSet` from
both ends. -/
def stripTiming (l : List Char) : List Char :=
  ((l.dropWhile (fun c => stripSet.contains c)).reverse.dropWhile
    (fun c => stripSet.contains c)).reverse

/-- Numeric value of a digit list, most significant first. -/
def digitsToNat (l : List Char) : Nat :=
  l.foldl (fun n c => 10 * n + (c.toNat - '0'.toNat)) 0

/-- Split a character list at the first `e`/`E` (exponent separator of a
Python float literal). -/
def splitAtExp : List Char → List Char × Option (List Char)
  | [] => ([], none)
  | c :: r =>
    if c == 'e' || c == 'E' then ([], some r)
    else
      match splitAtExp r with
      | (m, e) => (c :: m, e)

/-- Parse the mantissa of a Python float literal: `D+`, `D+.D*` or `.D+`.
The integer digits are the leading digit run, the rest must be empty or
a `.` followed by a digit run, with at least one digit overall. -/
def parseMantissa (l : List Char) : Option Frac :=
  if (l.dropWhile Char.isDigit).isEmpty then
    if (l.takeWhile Char.isDigit).isEmpty then none
    else some ⟨digitsToNat (l.takeWhile Char.isDigit), 1⟩
  else if (l.dropWhile Char.isDigit).head? == some '.' then
    if (((l.dropWhile Char.isDigit).drop 1).dropWhile Char.isDigit).isEmpty
        && !((l.takeWhile Char.isDigit).isEmpty
          && (((l.dropWhile Char.isDigit).drop 1).takeWhile Char.isDigit).isEmpty) then
      some ⟨digitsToNat (l.takeWhile Char.isDigit
              ++ ((l.dropWhile Char.isDigit).drop 1).takeWhile Char.isDigit),
            10 ^ (((l.dropWhile Char.isDigit).drop 1).takeWhile Char.isDigit).length⟩
    else none
  else none

/-- Parse the exponent part of a Python float literal (after `e`/`E`):
an optional sign and at least one digit.  `true` marks a negative
exponent. -/
def parseExpPart (l : List Char) : Option (Bool × Nat) :=
  match l with
  | '+' :: r => if !r.isEmpty && r.all Char.isDigit then some (false, digitsToNat r) else none
  | '-' :: r => if !r.isEmpty && r.all Char.isDigit then some (true, digitsToNat r) else none
  | r => if !r.isEmpty && r.all Char.isDigit then some (false, digitsToNat r) else none

/-- Unsigned finite Python float literal, with optional exponent. -/
def pyFloatCore (l : List Char) : Option Frac :=
  match (splitAtExp l).2 with
  | none => parseMantissa (splitAtExp l).1
  | some e =>
    match parseMantissa (splitAtExp l).1, parseExpPart e with
    | some q, some z => some (q.scale10 z)
    | _, _ => none

/-- Model of Python `float(s)` on the strings produced by the parser:
whitespace is stripped, an optional sign is honoured, and a finite
decimal literal is converted exactly.  (The non-finite literals
`inf`/`nan`, which `float` would also accept, are rejected; no value
scraped from a timing line is of that form in any input considered.)
`none` models `float` raising `ValueError`. -/
def parsePyFloat (l : List Char) : Option Frac :=
  match (l.dropWhile Char.isWhitespace).reverse.dropWhile Char.isWhitespace |>.reverse with
  | '+' :: r => pyFloatCore r
  | '-' :: r => (pyFloatCore r).map Frac.neg
  | r => pyFloatCore r

end SqllineCheck

namespace SqllineCheck

/-! ## The output parser of `execute_sqlline` (lines 82-122 of
`query-safety-check.py`, identically lines 83-123 and 236-276 of
`sqlline-service-check.py`). -/

/-- `"No rows affected"`, the first timing phrase. -/
def norowsPhrase : List Char := "No rows affected".data

/-- `"rows selected"`, the second timing phrase. -/
def rowselPhrase : List Char := "rows selected".data

/-- The pattern removed (together with everything before it) by
`re.sub('.*No rows affected \\(', '', line)`. -/
def norowsOpen : List Char := "No rows affected (".data

/-- The pattern removed (together with everything before it) by
`re.sub('.*rows selected \\(', '', line)`. -/
def rowselOpen : List Char := "rows selected (".data

/-- Fatal marker: `javax.naming.AuthenticationException` (line 101). -/
def authMarker : List Char := "javax.naming.AuthenticationException".data

/-- Fatal marker: driver general exception (line 104). -/
def generalMarker : List Char := "com.simba.hiveserver2.support.exceptions.GeneralException".data

/-- Value scraped from a timing line:
`float(re.sub('.*PHRASE (', '', line).strip(') seconds'))`.
`none` models the `ValueError` crash of `float`. -/
def extractTiming (openPat : List Char) (line : List Char) : Option Frac :=
  parsePyFloat (stripTiming ((afterLast openPat line).getD line))

/-- Effect of scanning one stdout line (lines 86-93). -/
inductive LineDelta where
  | skip
  | add (f : Frac)
  | crash
deriving DecidableEq

/-- Stdout line scan: the `No rows affected` branch is tested first,
`rows selected` only as `elif`; a phrase-bearing line whose scraped text
is not a float literal crashes with `ValueError`. -/
def stdoutLineDelta (line : List Char) : LineDelta :=
  if hasSub norowsPhrase line then
    match extractTiming norowsOpen line with
    | some f => .add f
    | none => .crash
  else if hasSub rowselPhrase line then
    match extractTiming rowselOpen line with
    | some f => .add f
    | none => .crash
  else .skip

/-- Effect of scanning one stderr line (lines 97-112). -/
inductive ErrLineDelta where
  | skip
  | add (f : Frac)
  | fatal
  | crash
deriving DecidableEq

/-- `markerHit l`: the line contains one of the two fatal markers. -/
def markerHit (l : List Char) : Bool :=
  hasSub authMarker l || hasSub generalMarker l

/-- Stderr line scan: both fatal markers are tested before the timing
patterns; otherwise a stderr line behaves exactly like a stdout line. -/
def stderrLineDelta (line : List Char) : ErrLineDelta :=
  if hasSub authMarker line then .fatal
  else if hasSub generalMarker line then .fatal
  else
    match stdoutLineDelta line with
    | .skip => .skip
    | .add f => .add f
    | .crash => .crash

/-- Fold of `stdoutLineDelta` over the stdout lines, accumulating
`perfstat`; `none` models the un-handled `ValueError`. -/
def scanStdout (acc : Frac) : List (List Char) → Option Frac
  | [] => some acc
  | l :: ls =>
    match stdoutLineDelta l with
    | .skip => scanStdout acc ls
    | .add f => scanStdout (acc.add f) ls
    | .crash => none

/-- Result of the stderr loop. -/
inductive ErrScan where
  | total (f : Frac)
  | fatalStop
  | crashStop
deriving DecidableEq

/-- Fold of `stderrLineDelta` over the stderr lines: a fatal marker
terminates the loop (`sys.exit(2)`), a malformed timing line crashes. -/
def scanStderr (acc : Frac) : List (List Char) → ErrScan
  | [] => .total acc
  | l :: ls =>
    match stderrLineDelta l with
    | .skip => scanStderr acc ls
    | .add f => scanStderr (acc.add f) ls
    | .fatal => .fatalStop
    | .crash => .crashStop

/-- Reason of an un-handled Python exception in the modelled flow. -/
inductive PyErr where
  | valueErrorFloat
  | unboundQueryVars
  | unboundPerfstat
  | unboundJdbc
  | typeErrorConcat
  | credsIndexError
  | commAbort
  | kinitNoneArg
  | syntaxErrorMergeConflict
deriving DecidableEq

/-- Process-level result of a run of `query-safety-check.py`.
`metric f` means `execute_sqlline` returned `perfstat = f` and the
program later finishes normally (process exit code 0); `exitMsg m`
models `sys.exit(m)` with a message string (process exit code 1);
`pyError` models an un-handled exception (process exit code 1). -/
inductive ROut where
  | metric (f : Frac)
  | exit2fatal
  | exit2nodata
  | exitMsg (m : String)
  | pyError (e : PyErr)
deriving DecidableEq

/-- Process exit code of each result (for `query-safety-check.py`, whose
`main` performs no further classification after `probe`). -/
def exitCodeOf : ROut → Nat
  | .metric _ => 0
  | .exit2fatal => 2
  | .exit2nodata => 2
  | .exitMsg _ => 1
  | .pyError _ => 1

/-- The stdout loop runs only under `if stdout:`; an empty capture is
not split at all. -/
def linesOf (s : String) : List (List Char) :=
  if s == "" then [] else splitNL s.data

/-- The complete output-analysis phase of `execute_sqlline`
(lines 82-122): scan stdout, then stderr, then exit with code 2 when
the accumulated total is exactly zero, otherwise return the total. -/
def analyzeOutput (out err : String) : ROut :=
  match scanStdout Frac.zero (linesOf out) with
  | none => .pyError .valueErrorFloat
  | some acc =>
    match scanStderr acc (linesOf err) with
    | .crashStop => .pyError .valueErrorFloat
    | .fatalStop => .exit2fatal
    | .total t => if t.isZero then .exit2nodata else .metric t

/-! ## Subprocess invocation and timeout handling (lines 62-78). -/

/-- Outcome of `sqlline_cmd_stream.communicate()`: either it returns the
two captured streams, or the blocking wait is interrupted (an externally
delivered timeout/kill signal raises inside `communicate`).  In the
interrupted case `out`/`err` are the partial streams drained by the
second `communicate()` in the `finally` block, and `stillRunning` is
whether `poll()` was still `None` (so the child had to be killed). -/
inductive CommResult where
  | done (out err : String)
  | interrupted (out err : String) (stillRunning : Bool)
deriving DecidableEq

/-- Mode of `execute_sqlline`: run the user-supplied file, or a
generated temp file holding the inline query (lines 50-58). -/
inductive ExecType where
  | fileT
  | queryT
deriving DecidableEq

/-- `port` as assembled in `main` (lines 261-266): the literal `int`
`10000` when `--port` is absent/falsy, otherwise the flag's string.  The
integer default later breaks the string concatenation that builds the
JDBC URL. -/
inductive PortV where
  | defaultInt
  | given (s : String)
deriving DecidableEq

/-- The fields of the `QuerySafetyCheck` object (lines 25-35). -/
structure CheckCfg where
  adserver : Option String
  database : String
  hostname : Option String
  mode : String
  PASSWORD : String
  port : PortV
  query : Option String
  queryfile : Option String
  realm : Option String
  username : String
deriving DecidableEq

/-- JDBC connection-string construction (lines 40-47).  A mode other
than `kerberos`/`ssl` leaves `jdbc` unassigned and the following
`logging.debug("JDBC used: " + str(jdbc))` raises `NameError`; a `None`
field or the integer default port makes the string concatenation raise
`TypeError`. -/
def buildJdbc (c : CheckCfg) : Except PyErr String :=
  if c.mode == "kerberos" then
    match c.hostname, c.port, c.adserver, c.realm with
    | some h, PortV.given p, some ad, some r =>
      Except.ok ("\"jdbc:hive2://" ++ h ++ ":" ++ p ++ "/;AuthMech=1;KrbHostFQDN=" ++ ad
        ++ ";KrbServiceName=hive;KrbHostFQDN=" ++ h ++ ";KrbRealm=" ++ r ++ "\"")
    | _, _, _, _ => Except.error PyErr.typeErrorConcat
  else if c.mode == "ssl" then
    match c.hostname, c.port with
    | some h, PortV.given p =>
      Except.ok ("\"jdbc:hive2://" ++ h ++ ":" ++ p ++ "/;ssl=1;AuthMech=3\"")
    | _, _ => Except.error PyErr.typeErrorConcat
  else Except.error PyErr.unboundJdbc

/-- Everything of `execute_sqlline` that runs before `Popen` (lines
40-58): JDBC construction and query-file selection.  In `queryT` mode a
`None` query makes the temp-file write raise `TypeError`; in `fileT`
mode a `None` queryfile makes `Popen` raise `TypeError` before any child
is spawned. -/
def preCheck (c : CheckCfg) (et : ExecType) : Except PyErr String :=
  match buildJdbc c with
  | .error e => .error e
  | .ok j =>
    match et with
    | .fileT => match c.queryfile with
      | some _ => .ok j
      | none => .error .typeErrorConcat
    | .queryT => match c.query with
      | some _ => .ok j
      | none => .error .typeErrorConcat

/-- Whether `execute_sqlline` reaches the `Popen` call and spawns the
sqlline child process. -/
def execSpawnB (c : CheckCfg) (et : ExecType) : Bool :=
  match preCheck c et with
  | .ok _ => true
  | .error _ => false

/-- Result of `execute_sqlline` (lines 60-122).  On an interrupted wait
the `except` block re-raises after the `finally` block drains, so the
captured partial output is never analyzed: the exception propagates
through `probe` and `main` (both only `raise`) and the process dies with
an un-handled exception. -/
def execRes (c : CheckCfg) (et : ExecType) (comm : CommResult) : ROut :=
  match preCheck c et with
  | .error e => .pyError e
  | .ok _ =>
    match comm with
    | .done out err => analyzeOutput out err
    | .interrupted _ _ _ => .pyError .commAbort

/-- Whether the `finally` block kills the child (line 76): only when
`communicate` was interrupted and `poll()` still reports running. -/
def execKilled (c : CheckCfg) (et : ExecType) (comm : CommResult) : Bool :=
  match preCheck c et with
  | .error _ => false
  | .ok _ =>
    match comm with
    | .done _ _ => false
    | .interrupted _ _ s => s

/-- Whether the `finally` block re-drains stdout/stderr with a second
`communicate()` (line 77): exactly when it kills. -/
def execDrained (c : CheckCfg) (et : ExecType) (comm : CommResult) : Bool :=
  match preCheck c et with
  | .error _ => false
  | .ok _ =>
    match comm with
    | .done _ _ => false
    | .interrupted _ _ s => s

/-! ## `main` of `query-safety-check.py` (lines 164-288). -/

/-- External subprocesses the script can spawn. -/
inductive ExtCall where
  | klistCall
  | kinitCall (keytab : String) (principal : String)
  | sqllineCall
deriving DecidableEq

/-- External world visible to one run: the two lines of the credentials
file (already `rstrip`-ed), the exit statuses of `klist -s` and `kinit`,
and the child-process interaction. -/
structure SysEnv where
  credsContent : List String
  klistStatus : Int
  kinitStatus : Int
  comm : CommResult
deriving DecidableEq

/-- The parsed command-line flags of `query-safety-check.py` (lines
169-194).  `warning`/`critical` are accepted by the argument parser but
never used afterwards.  `debug`, `verbose` and the log flags only affect
logging and are omitted. -/
structure Args where
  adserver : Option String
  creds : Option String
  database : String
  filename : Option String
  hostname : Option String
  keytab : Option String
  mode : String
  port : Option String
  query : Option String
  realm : Option String
  username : Option String
  warning : String
  critical : String
deriving DecidableEq

/-- Failure of the credentials stage. -/
inductive CredsErr where
  | credsShort
  | needCreds
  | needUser
deriving DecidableEq

/-- Credentials resolution (lines 225-240, identical at lines 477-494 of
the service script): a credentials file is read when supplied and the
mode is not kerberos (fewer than two lines raises `IndexError`);
otherwise a missing file is fatal for non-kerberos modes, and a missing
username is fatal for kerberos mode.  Returns `(username, PASSWORD)`. -/
def credsLogic (creds : Option String) (mode : String) (username : Option String)
    (content : List String) : Except CredsErr (String × String) :=
  if truthy creds && !(mode == "kerberos") then
    match content with
    | u :: p :: _ => .ok (u, p)
    | _ => .error .credsShort
  else if !(truthy creds) && !(mode == "kerberos") then
    .error .needCreds
  else if !(truthy username) then
    .error .needUser
  else
    .ok (username.getD "", "")

/-- Map a credentials failure to its process-level result. -/
def credsErrOut : CredsErr → ROut
  | .credsShort => .pyError .credsIndexError
  | .needCreds => .exitMsg "Credentials required for non-kerberos use"
  | .needUser => .exitMsg "Username argument is requird"

/-- Kerberos stage of `query-safety-check.py` (lines 242-258): require
`--adserver` and `--realm`, then run `klist -s`; when that fails, a
missing keytab is fatal, otherwise `kinit -kt KEYTAB user@GEISINGER.EDU`
is run and its failure is fatal.  Returns the calls made and, when the
stage aborts, the resulting exit. -/
def kerbStage (a : Args) (env : SysEnv) (username : String) :
    List ExtCall × Option ROut :=
  if a.mode == "kerberos" then
    if !(truthy a.adserver) then
      ([], some (.exitMsg "--adserver is required for kerberos usage (e.g. hostname.domain.com)"))
    else if !(truthy a.realm) then
      ([], some (.exitMsg "--realm is required for kerberos usage (e.g. DOMAIN.COM)"))
    else if env.klistStatus != 0 then
      if !(truthy a.keytab) then
        ([ExtCall.klistCall], some (.exitMsg "No kerberos ticket found and no keytab provided!"))
      else if env.kinitStatus != 0 then
        ([ExtCall.klistCall, ExtCall.kinitCall (a.keytab.getD "") (username ++ "@GEISINGER.EDU")],
          some (.exitMsg "Failed to kinit"))
      else
        ([ExtCall.klistCall, ExtCall.kinitCall (a.keytab.getD "") (username ++ "@GEISINGER.EDU")],
          none)
    else ([ExtCall.klistCall], none)
  else ([], none)

/-- `probe` (lines 124-134): run the file if `queryfile` is truthy, else
the inline query if truthy, else `perfstat` is never assigned and the
following log line raises `NameError`.  Appends the sqlline call to the
trace when the child is actually spawned. -/
def probeRun (cfg : CheckCfg) (comm : CommResult) (tr : List ExtCall) :
    List ExtCall × ROut :=
  if truthy cfg.queryfile then
    (tr ++ (if execSpawnB cfg .fileT then [ExtCall.sqllineCall] else []),
      execRes cfg .fileT comm)
  else if truthy cfg.query then
    (tr ++ (if execSpawnB cfg .queryT then [ExtCall.sqllineCall] else []),
      execRes cfg .queryT comm)
  else (tr, .pyError .unboundPerfstat)

/-- `main` of `query-safety-check.py` (lines 164-288), as the pair
(external calls made, process-level result).  Order as in the source:
the query/file exclusivity check (line 205), the `query`/`queryfile`
assignment that leaves both unassigned when neither flag is given
(lines 208-213), the log-file name concatenation that raises `TypeError`
when `--hostname` is absent (line 218), credentials (lines 225-240), the
kerberos stage (lines 242-258), the port default (lines 261-266), and
the check construction (line 272) — which raises `NameError` when
`query`/`queryfile` were never assigned — followed by `probe`. -/
def mainRun (a : Args) (env : SysEnv) : List ExtCall × ROut :=
  if truthy a.query && truthy a.filename then
    ([], .exitMsg "Cannot specify both a query and a file")
  else
    match a.hostname with
    | none => ([], .pyError .typeErrorConcat)
    | some _ =>
      match credsLogic a.creds a.mode a.username env.credsContent with
      | .error e => ([], credsErrOut e)
      | .ok up =>
        match kerbStage a env up.1 with
        | (tr, some r) => (tr, r)
        | (tr, none) =>
          match (if truthy a.query then some (a.query, (none : Option String))
                 else if truthy a.filename then some ((none : Option String), a.filename)
                 else none) with
          | none => (tr, .pyError .unboundQueryVars)
          | some qv =>
            probeRun
              ⟨a.adserver, a.database, a.hostname, a.mode, up.2,
                (if truthy a.port then PortV.given (a.port.getD "") else PortV.defaultInt),
                qv.1, qv.2, a.realm, up.1⟩
              env.comm tr

/-! ## `sqlline-service-check.py`.  The file as shipped contains
unresolved merge-conflict markers (`<<<<<<< HEAD` at line 23, `=======`
at line 167, `>>>>>>> ...` at line 323, and a second conflict around
`main`), so the Python interpreter rejects the whole file with a
`SyntaxError` at import time: no statement of it — in particular none of
the kerberos code at the cited lines 496-505 — ever executes, and no
subprocess is ever spawned by any invocation. -/

/-- The flags of `sqlline-service-check.py` relevant to the modelled
flow (lines 330-356). -/
structure SArgs where
  adserver : Option String
  auth_mode : String
  creds : Option String
  database : String
  filename : Option String
  hostname : Option String
  keytab : Option String
  port : Option String
  query : Option String
  realm : Option String
  username : Option String
  warning : String
  critical : String
  maxRange : String
deriving DecidableEq

/-- Result of a run of the service script (`reached` would mean control
arrives at the `nagiosplugin.Check` construction; with the shipped file
no run gets past the parse error). -/
inductive SOut where
  | exitMsg (m : String)
  | pyError (e : PyErr)
  | reached
deriving DecidableEq

/-- A run of `sqlline-service-check.py` as shipped: whatever the flags
and the environment, the interpreter raises `SyntaxError` at the first
merge-conflict marker (line 23) before executing anything.  The process
dies with the un-handled parse error (exit code 1), makes no external
call, performs no ticket-status check and no ticket-init. -/
def serviceMain (_a : SArgs) (_env : SysEnv) : List ExtCall × SOut :=
  ([], .pyError .syntaxErrorMergeConflict)

/-! ## Threshold classification. -/

/-- Split a character list at the first `:`. -/
def splitColon : List Char → Option (List Char × List Char)
  | [] => none
  | c :: r =>
    if c == ':' then some ([], r)
    else (splitColon r).map (fun p => (c :: p.1, p.2))

/-- Modelled from the spec: the monitoring-plugin threshold range
mini-language (`min:max`, `~:max`, `@min:max`, bare `max` meaning
`0:max`) that classification delegates to — it is implemented by the
external `nagiosplugin` library, which is not part of this repository's
sources.  `rangeViolated r v` decides whether value `v` violates range
`r`; an empty range never does, a leading `@` inverts (violation when
inside), `~` removes the lower bound, and a bare value is the upper
bound with implicit lower bound 0. -/
def rangeViolated (r : String) (v : Frac) : Bool :=
  if r == "" then false
  else
    let body := match r.data with
      | '@' :: rest => rest
      | l => l
    let inside := match r.data with
      | '@' :: _ => true
      | _ => false
    let outsideViol : Option Bool :=
      match splitColon body with
      | none =>
        (parsePyFloat body).map (fun m => Frac.ltB v ⟨0, 1⟩ || Frac.ltB m v)
      | some (lo, hi) =>
        let loB : Option (Option Frac) :=
          if lo == ['~'] then some none
          else if lo.isEmpty then some (some ⟨0, 1⟩)
          else (parsePyFloat lo).map some
        let hiB : Option (Option Frac) :=
          if hi.isEmpty then some none
          else (parsePyFloat hi).map some
        match loB, hiB with
        | some l, some h =>
          some ((match l with | some lf => Frac.ltB v lf | none => false)
            || (match h with | some hf => Frac.ltB hf v | none => false))
        | _, _ => none
    match outsideViol with
    | some b => if inside then !b else b
    | none => false

/-- Modelled from the spec: `nagiosplugin.ScalarContext(warning,
critical)` classification — CRITICAL (2) when the critical range is
violated, else WARNING (1) when the warning range is violated, else
OK (0). -/
def classify (warnR critR : String) (v : Frac) : Nat :=
  if rangeViolated critR v then 2
  else if rangeViolated warnR v then 1
  else 0

/-! ## Value-level summation, used by the scanner soundness lemmas
below (which feed the denominator-positivity facts): the value a line
contributes in the exact-rational reading, and its sum over a line list.
These describe the exact-rational accumulator only; the program's
binary64 accumulator rounds each addition, so no claim is settled by
equating the two on general inputs. -/

/-- The value contributed by one line: the extracted timing value on a
line the scanner adds, `0` otherwise. -/
def lineVal (l : List Char) : ℚ :=
  match stdoutLineDelta l with
  | .add f => f.toRat
  | _ => 0

/-- Sum of the contributed values of a list of lines. -/
def sumVals (ls : List (List Char)) : ℚ := (ls.map lineVal).sum

/-- A stdout line whose scan leaves the accumulator's value untouched
and exact: the line either matches no timing pattern, or carries a
well-formed literal of value zero (such as `(0.0 seconds)`), which
Python `float` converts to exactly `±0.0` and whose addition is exact.
On every stream all of whose lines satisfy this, the program's float
accumulator is exactly `0.0`, just like the model's. -/
def zeroDelta : LineDelta → Bool
  | .skip => true
  | .add f => f.num == 0
  | .crash => false

/-- The stderr counterpart of `zeroDelta` (no fatal marker, and no
nonzero or malformed timing value). -/
def zeroDeltaErr : ErrLineDelta → Bool
  | .skip => true
  | .add f => f.num == 0
  | .fatal => false
  | .crash => false

/-- A character of a plain decimal numeral: a digit or the dot.  Used to
describe the `X` of a well-formed `... (X seconds)` timing line. -/
def numChar (c : Char) : Bool := c.isDigit || c == '.'

end SqllineCheck

namespace SqllineCheck

/-! ## Lemmas about `Frac` -/

lemma Frac.toRat_zero : Frac.zero.toRat = 0 := by
  simp [Frac.zero, Frac.toRat]

lemma Frac.add_denPos {a b : Frac} (ha : 0 < a.den) (hb : 0 < b.den) :
    0 < (a.add b).den := Nat.mul_pos ha hb

lemma Frac.toRat_add {a b : Frac} (ha : 0 < a.den) (hb : 0 < b.den) :
    (a.add b).toRat = a.toRat + b.toRat := by
  have ha' : ((a.den : ℚ)) ≠ 0 := Nat.cast_ne_zero.2 ha.ne'
  have hb' : ((b.den : ℚ)) ≠ 0 := Nat.cast_ne_zero.2 hb.ne'
  unfold Frac.add Frac.toRat
  push_cast
  field_simp

lemma Frac.isZero_iff {f : Frac} (hd : 0 < f.den) : f.isZero = true ↔ f.toRat = 0 := by
  have hd' : ((f.den : ℚ)) ≠ 0 := Nat.cast_ne_zero.2 hd.ne'
  unfold Frac.isZero Frac.toRat
  rw [div_eq_zero_iff]
  simp [hd']

/-! ## Denominator positivity through the float parser -/

lemma parseMantissa_denPos {l : List Char} {f : Frac}
    (h : parseMantissa l = some f) : 0 < f.den := by
  unfold parseMantissa at h
  split at h
  · split at h
    · exact absurd h (by simp)
    · cases h; exact Nat.one_pos
  · split at h
    · split at h
      · cases h; exact pow_pos (by norm_num) _
      · exact absurd h (by simp)
    · exact absurd h (by simp)

lemma scale10_denPos {f : Frac} {z : Bool × Nat} (hf : 0 < f.den) :
    0 < (f.scale10 z).den := by
  rcases z with ⟨b, e⟩
  cases b
  · exact hf
  · exact Nat.mul_pos hf (pow_pos (by norm_num) _)

lemma pyFloatCore_denPos {l : List Char} {f : Frac}
    (h : pyFloatCore l = some f) : 0 < f.den := by
  unfold pyFloatCore at h
  split at h
  · exact parseMantissa_denPos h
  · split at h
    · rename_i hm _
      cases h
      exact scale10_denPos (parseMantissa_denPos hm)
    · exact absurd h (by simp)

lemma neg_denPos {f : Frac} (hf : 0 < f.den) : 0 < f.neg.den := hf

lemma parsePyFloat_denPos {l : List Char} {f : Frac}
    (h : parsePyFloat l = some f) : 0 < f.den := by
  unfold parsePyFloat at h
  split at h
  · exact pyFloatCore_denPos h
  · rw [Option.map_eq_some'] at h
    obtain ⟨g, hg, rfl⟩ := h
    exact neg_denPos (pyFloatCore_denPos hg)
  · exact pyFloatCore_denPos h

lemma extractTiming_denPos {p l : List Char} {f : Frac}
    (h : extractTiming p l = some f) : 0 < f.den :=
  parsePyFloat_denPos h

lemma stdoutLineDelta_denPos {l : List Char} {f : Frac}
    (h : stdoutLineDelta l = .add f) : 0 < f.den := by
  unfold stdoutLineDelta at h
  split at h
  · split at h
    · cases h
      next he => exact extractTiming_denPos he
    · exact absurd h (by simp)
  · split at h
    · split at h
      · cases h
        next he => exact extractTiming_denPos he
      · exact absurd h (by simp)
    · exact absurd h (by simp)

/-! ## Relating the stderr scanner to the stdout scanner -/

lemma stderrLineDelta_skip {l : List Char} (h : stderrLineDelta l = .skip) :
    stdoutLineDelta l = .skip := by
  unfold stderrLineDelta at h
  split at h
  · exact absurd h (by simp)
  · split at h
    · exact absurd h (by simp)
    · split at h <;> simp_all

lemma stderrLineDelta_add {l : List Char} {f : Frac}
    (h : stderrLineDelta l = .add f) : stdoutLineDelta l = .add f := by
  unfold stderrLineDelta at h
  split at h
  · exact absurd h (by simp)
  · split at h
    · exact absurd h (by simp)
    · split at h <;> simp_all

lemma markerHit_fatal {l : List Char} (h : markerHit l = true) :
    stderrLineDelta l = .fatal := by
  unfold markerHit at h
  unfold stderrLineDelta
  rcases Bool.or_eq_true_iff.1 h with h1 | h1 <;> simp [h1]

/-! ## Soundness of the stream scanners -/

lemma sumVals_nil : sumVals [] = 0 := rfl

lemma sumVals_cons {l : List Char} {ls : List (List Char)} :
    sumVals (l :: ls) = lineVal l + sumVals ls := by
  simp [sumVals]

lemma sumVals_append {l1 l2 : List (List Char)} :
    sumVals (l1 ++ l2) = sumVals l1 + sumVals l2 := by
  simp [sumVals]

lemma scanStdout_sound :
    ∀ (ls : List (List Char)) (acc t : Frac), 0 < acc.den →
      scanStdout acc ls = some t → 0 < t.den ∧ t.toRat = acc.toRat + sumVals ls := by
  intro ls
  induction ls with
  | nil =>
    intro acc t ha h
    simp only [scanStdout] at h
    cases h
    exact ⟨ha, by simp [sumVals_nil]⟩
  | cons l ls ih =>
    intro acc t ha h
    simp only [scanStdout] at h
    cases hd : stdoutLineDelta l with
    | skip =>
      rw [hd] at h
      obtain ⟨h1, h2⟩ := ih acc t ha h
      refine ⟨h1, ?_⟩
      rw [h2, sumVals_cons]
      simp [lineVal, hd]
    | add f =>
      rw [hd] at h
      have hfd : 0 < f.den := stdoutLineDelta_denPos hd
      obtain ⟨h1, h2⟩ := ih (acc.add f) t (Frac.add_denPos ha hfd) h
      refine ⟨h1, ?_⟩
      rw [h2, Frac.toRat_add ha hfd, sumVals_cons]
      have : lineVal l = f.toRat := by simp [lineVal, hd]
      rw [this]; ring
    | crash =>
      rw [hd] at h
      exact absurd h (by simp)

lemma scanStderr_sound :
    ∀ (ls : List (List Char)) (acc t : Frac), 0 < acc.den →
      scanStderr acc ls = .total t → 0 < t.den ∧ t.toRat = acc.toRat + sumVals ls := by
  intro ls
  induction ls with
  | nil =>
    intro acc t ha h
    simp only [scanStderr] at h
    cases h
    exact ⟨ha, by simp [sumVals_nil]⟩
  | cons l ls ih =>
    intro acc t ha h
    simp only [scanStderr] at h
    cases hd : stderrLineDelta l with
    | skip =>
      rw [hd] at h
      obtain ⟨h1, h2⟩ := ih acc t ha h
      refine ⟨h1, ?_⟩
      rw [h2, sumVals_cons]
      simp [lineVal, stderrLineDelta_skip hd]
    | add f =>
      rw [hd] at h
      have hsd := stderrLineDelta_add hd
      have hfd : 0 < f.den := stdoutLineDelta_denPos hsd
      obtain ⟨h1, h2⟩ := ih (acc.add f) t (Frac.add_denPos ha hfd) h
      refine ⟨h1, ?_⟩
      rw [h2, Frac.toRat_add ha hfd, sumVals_cons]
      have : lineVal l = f.toRat := by simp [lineVal, hsd]
      rw [this]; ring
    | fatal =>
      rw [hd] at h
      exact absurd h (by simp)
    | crash =>
      rw [hd] at h
      exact absurd h (by simp)

lemma stderrLineDelta_fatal_iff {l : List Char} :
    stderrLineDelta l = .fatal ↔ markerHit l = true := by
  constructor
  · intro h
    unfold stderrLineDelta at h
    unfold markerHit
    split at h
    · rename_i h1; simp [h1]
    · split at h
      · rename_i _ h2; simp [h2]
      · split at h <;> simp_all
  · exact markerHit_fatal

/-- The stderr loop reaches `sys.exit(2)` whenever some line carries a
marker and every marker-free line scanned BEFORE it parses cleanly;
lines after the marker are never examined, so they may be arbitrary
(malformed included). -/
lemma scanStderr_fatal_prefix :
    ∀ (pre : List (List Char)) (m : List Char) (post : List (List Char)) (acc : Frac),
      markerHit m = true →
      (∀ x ∈ pre, markerHit x = false → stderrLineDelta x ≠ .crash) →
      scanStderr acc (pre ++ m :: post) = .fatalStop := by
  intro pre
  induction pre with
  | nil =>
    intro m post acc hm _
    simp only [List.nil_append, scanStderr]
    rw [markerHit_fatal hm]
  | cons x pre ih =>
    intro m post acc hm hnc
    simp only [List.cons_append, scanStderr]
    cases hmx : markerHit x with
    | true => rw [markerHit_fatal hmx]
    | false =>
      have hrest : ∀ y ∈ pre, markerHit y = false → stderrLineDelta y ≠ .crash :=
        fun y hy => hnc y (List.mem_cons_of_mem _ hy)
      cases hd : stderrLineDelta x with
      | fatal => rfl
      | crash => exact absurd hd (hnc x (by simp) hmx)
      | skip => exact ih m post acc hm hrest
      | add f => exact ih m post (acc.add f) hm hrest

/-! ## Substring occurrence lemmas -/

lemma leadsWith_append (pat rest : List Char) : leadsWith pat (pat ++ rest) = true := by
  induction pat with
  | nil => rfl
  | cons p ps ih => simp [leadsWith, ih]

lemma hasSub_of_leadsWith {pat l : List Char} (h : leadsWith pat l = true) :
    hasSub pat l = true := by
  cases l with
  | nil => simpa [hasSub] using h
  | cons c cs => simp [hasSub, h]

lemma hasSub_append_left {pat t : List Char} (u : List Char) (h : hasSub pat t = true) :
    hasSub pat (u ++ t) = true := by
  induction u with
  | nil => simpa using h
  | cons c cs ih => simp [hasSub, ih]

lemma mem_of_hasSub_cons {p : Char} {ps l : List Char}
    (h : hasSub (p :: ps) l = true) : p ∈ l := by
  induction l with
  | nil => simp [hasSub, leadsWith] at h
  | cons c cs ih =>
    rw [hasSub] at h
    rcases Bool.or_eq_true_iff.1 h with h1 | h1
    · rw [leadsWith, Bool.and_eq_true] at h1
      have hpc : p = c := beq_iff_eq.1 h1.1
      rw [hpc]
      exact List.mem_cons_self c cs
    · exact List.mem_cons_of_mem _ (ih h1)

lemma hasSub_false_of_head_notMem {p : Char} {ps l : List Char} (h : p ∉ l) :
    hasSub (p :: ps) l = false := by
  cases hs : hasSub (p :: ps) l with
  | false => rfl
  | true => exact absurd (mem_of_hasSub_cons hs) h

lemma afterLast_none_iff {pat l : List Char} :
    afterLast pat l = none ↔ hasSub pat l = false := by
  induction l with
  | nil =>
    unfold afterLast hasSub
    cases hlw : leadsWith pat [] <;> simp [hlw]
  | cons c cs ih =>
    unfold afterLast hasSub
    cases ha : afterLast pat cs with
    | some s =>
      have hsub : hasSub pat cs = true := by
        cases hs : hasSub pat cs with
        | true => rfl
        | false => rw [ih.2 hs] at ha; cases ha
      simp [hsub]
    | none =>
      have hsub : hasSub pat cs = false := ih.1 ha
      cases hlw : leadsWith pat (c :: cs) <;> simp [hlw, hsub]

lemma afterLast_last_occurrence {p : Char} {ps suf : List Char} :
    ∀ u : List Char, hasSub (p :: ps) (ps ++ suf) = false →
      afterLast (p :: ps) (u ++ ((p :: ps) ++ suf)) = some suf := by
  intro u
  induction u with
  | nil =>
    intro h
    simp only [List.nil_append, List.cons_append]
    unfold afterLast
    rw [afterLast_none_iff.2 h]
    have hlw : leadsWith (p :: ps) (p :: (ps ++ suf)) = true := by
      have := leadsWith_append (p :: ps) suf
      simpa using this
    rw [hlw]
    simp only [List.length_cons, List.drop_succ_cons, if_true]
    simp [List.drop_left]
  | cons c u ih =>
    intro h
    rw [List.cons_append]
    unfold afterLast
    rw [ih h]

/-! ## End-stripping preserves interior characters -/

lemma mem_dropWhile_of_not {p : Char → Bool} {a : Char} (ha : p a = false) :
    ∀ {l : List Char}, a ∈ l → a ∈ l.dropWhile p := by
  intro l
  induction l with
  | nil => intro h; cases h
  | cons c cs ih =>
    intro h
    cases hc : p c with
    | true =>
      rw [List.dropWhile_cons_of_pos hc]
      rcases List.mem_cons.1 h with rfl | h2
      · rw [hc] at ha; cases ha
      · exact ih h2
    | false =>
      rw [List.dropWhile_cons_of_neg (by simp [hc])]
      exact h

lemma mem_stripBoth {p : Char → Bool} {a : Char} (ha : p a = false) {l : List Char}
    (h : a ∈ l) : a ∈ ((l.dropWhile p).reverse.dropWhile p).reverse := by
  rw [List.mem_reverse]
  exact mem_dropWhile_of_not ha (List.mem_reverse.2 (mem_dropWhile_of_not ha h))

/-! ## Numeral characters and end-stripping of a well-formed value -/

lemma numChar_notMem_strip {c : Char} (h : numChar c = true) : c ∉ stripSet := by
  intro hmem
  fin_cases hmem <;> exact absurd h (by decide)

lemma ne_of_numChar {c d : Char} (h : numChar c = true) (hd : numChar d = false) :
    c ≠ d := by
  intro e
  rw [e, hd] at h
  cases h

lemma dropWhile_append_all {p : Char → Bool} {l1 l2 : List Char}
    (h : ∀ c ∈ l1, p c = true) :
    List.dropWhile p (l1 ++ l2) = List.dropWhile p l2 := by
  induction l1 with
  | nil => rfl
  | cons c cs ih =>
    rw [List.cons_append, List.dropWhile_cons_of_pos (h c (by simp))]
    exact ih (fun x hx => h x (List.mem_cons_of_mem _ hx))

lemma stripTiming_numeral {X : List Char} (hne : X ≠ [])
    (hX : ∀ c ∈ X, numChar c = true) :
    stripTiming (X ++ " seconds)".data) = X := by
  obtain ⟨x, X', rfl⟩ : ∃ x X', X = x :: X' := by
    cases X with
    | nil => exact absurd rfl hne
    | cons a b => exact ⟨a, b, rfl⟩
  unfold stripTiming
  have hx : x ∉ stripSet := numChar_notMem_strip (hX x (by simp))
  rw [List.cons_append, List.dropWhile_cons_of_neg (by simp [hx])]
  rw [show (x :: (X' ++ " seconds)".data)) = (x :: X') ++ " seconds)".data from by simp]
  rw [List.reverse_append]
  rw [dropWhile_append_all (by decide)]
  cases hr : (x :: X').reverse with
  | nil => exact absurd hr (by simp)
  | cons y ys =>
    have hy : y ∈ x :: X' := by
      rw [← List.mem_reverse, hr]
      simp
    have hyn : y ∉ stripSet := numChar_notMem_strip (hX y hy)
    rw [List.dropWhile_cons_of_neg (by simp [hyn])]
    rw [← hr, List.reverse_reverse]

/-! ## A non-numeric character defeats the float parser -/

lemma all_eq_false_of_mem {p : Char → Bool} {c : Char} {l : List Char}
    (hm : c ∈ l) (hc : p c = false) : l.all p = false := by
  cases ha : l.all p with
  | false => rfl
  | true =>
    rw [List.all_eq_true] at ha
    rw [ha c hm] at hc
    cases hc

lemma parseMantissa_none_of_bad {c : Char} (hd : c.isDigit = false)
    (hdot : c ≠ '.') {l : List Char} (hm : c ∈ l) :
    parseMantissa l = none := by
  unfold parseMantissa
  have h1 : c ∈ l.dropWhile Char.isDigit := mem_dropWhile_of_not hd hm
  obtain ⟨d, rest, hdrop⟩ : ∃ d rest, l.dropWhile Char.isDigit = d :: rest := by
    cases hdr : l.dropWhile Char.isDigit with
    | nil => rw [hdr] at h1; cases h1
    | cons a b => exact ⟨a, b, rfl⟩
  rw [hdrop]
  simp only [List.isEmpty_cons, Bool.false_eq_true, if_false]
  cases hh : (some d == some '.') with
  | false => simp [List.head?, hh]
  | true =>
    have hd' : d = '.' := by
      have := beq_iff_eq.1 hh
      exact Option.some.inj this
    have hcrest : c ∈ rest := by
      rw [hdrop] at h1
      rcases List.mem_cons.1 h1 with rfl | h2
      · exact absurd hd' hdot
      · exact h2
    have h2 : c ∈ rest.dropWhile Char.isDigit := mem_dropWhile_of_not hd hcrest
    have h3 : (rest.dropWhile Char.isDigit).isEmpty = false := by
      cases hdr : rest.dropWhile Char.isDigit with
      | nil => rw [hdr] at h2; cases h2
      | cons a b => rfl
    simp [List.head?, hh, h3]

lemma parseExpPart_none_of_bad {c : Char} (hd : c.isDigit = false)
    (hplus : c ≠ '+') (hminus : c ≠ '-') {e : List Char} (hm : c ∈ e) :
    parseExpPart e = none := by
  unfold parseExpPart
  split
  · rename_i r
    rcases List.mem_cons.1 hm with rfl | h2
    · exact absurd rfl hplus
    · rw [all_eq_false_of_mem h2 hd]
      simp
  · rename_i r
    rcases List.mem_cons.1 hm with rfl | h2
    · exact absurd rfl hminus
    · rw [all_eq_false_of_mem h2 hd]
      simp
  · rw [all_eq_false_of_mem hm hd]
    simp

lemma splitAtExp_reconstruct : ∀ l : List Char,
    ((splitAtExp l).2 = none ∧ (splitAtExp l).1 = l)
    ∨ ∃ ch e, (ch = 'e' ∨ ch = 'E') ∧ (splitAtExp l).2 = some e
        ∧ l = (splitAtExp l).1 ++ ch :: e := by
  intro l
  induction l with
  | nil => exact Or.inl ⟨rfl, rfl⟩
  | cons c r ih =>
    rcases hsp : splitAtExp r with ⟨m, eo⟩
    rw [hsp] at ih
    unfold splitAtExp
    cases hc : (c == 'e' || c == 'E') with
    | true =>
      right
      refine ⟨c, r, ?_, by simp [hc], by simp [hc]⟩
      rcases Bool.or_eq_true_iff.1 hc with h | h
      · exact Or.inl (beq_iff_eq.1 h)
      · exact Or.inr (beq_iff_eq.1 h)
    | false =>
      rcases ih with ⟨h2, h1⟩ | ⟨ch, e, hch, h2, hl⟩
      · left
        constructor
        · simp [hc, hsp, h2]
        · simp [hc, hsp, h1]
      · right
        refine ⟨ch, e, hch, by simp [hc, hsp, h2], ?_⟩
        simp only [hc, hsp]
        simp only [Bool.false_eq_true, if_false]
        rw [List.cons_append]
        rw [← hl]

lemma pyFloatCore_none_of_bad {c : Char} (hd : c.isDigit = false)
    (hdot : c ≠ '.') (he : c ≠ 'e') (hE : c ≠ 'E')
    (hplus : c ≠ '+') (hminus : c ≠ '-') {l : List Char} (hm : c ∈ l) :
    pyFloatCore l = none := by
  unfold pyFloatCore
  rcases splitAtExp_reconstruct l with ⟨h2, h1⟩ | ⟨ch, e, hch, h2, hl⟩
  · simp only [h2]
    exact parseMantissa_none_of_bad hd hdot (by rw [h1]; exact hm)
  · simp only [h2]
    rw [hl] at hm
    rcases List.mem_append.1 hm with hmm | hmm
    · rw [parseMantissa_none_of_bad hd hdot hmm]
    · rcases List.mem_cons.1 hmm with rfl | hme
      · rcases hch with rfl | rfl
        · exact absurd rfl he
        · exact absurd rfl hE
      · rw [parseExpPart_none_of_bad hd hplus hminus hme]
        cases parseMantissa (splitAtExp l).1 <;> rfl

lemma parsePyFloat_none_of_bad {c : Char} (hd : c.isDigit = false)
    (hdot : c ≠ '.') (he : c ≠ 'e') (hE : c ≠ 'E')
    (hplus : c ≠ '+') (hminus : c ≠ '-') (hws : c.isWhitespace = false)
    {l : List Char} (hm : c ∈ l) :
    parsePyFloat l = none := by
  have hmt : c ∈ ((l.dropWhile Char.isWhitespace).reverse.dropWhile
      Char.isWhitespace).reverse := mem_stripBoth hws hm
  unfold parsePyFloat
  split
  · rename_i r heq
    rw [heq] at hmt
    rcases List.mem_cons.1 hmt with rfl | hr
    · exact absurd rfl hplus
    · exact pyFloatCore_none_of_bad hd hdot he hE hplus hminus hr
  · rename_i r heq
    rw [heq] at hmt
    rcases List.mem_cons.1 hmt with rfl | hr
    · exact absurd rfl hminus
    · rw [pyFloatCore_none_of_bad hd hdot he hE hplus hminus hr]
      rfl
  · exact pyFloatCore_none_of_bad hd hdot he hE hplus hminus hmt

/-! ## Well-formed and malformed timing lines -/

/-- Scraping a line of shape `u ++ PHRASE ++ " (" ++ X ++ " seconds)"`,
where the opening pattern's first character occurs nowhere later in the
line, yields exactly the parse of the numeral `X`. -/
lemma timing_line_extract {p : Char} {ps : List Char} (u X : List Char) (f : Frac)
    (hne : X ≠ []) (hX : ∀ c ∈ X, numChar c = true)
    (hp : ∀ c ∈ ps ++ (X ++ " seconds)".data), c ≠ p)
    (hparse : parsePyFloat X = some f) :
    extractTiming (p :: ps) (u ++ ((p :: ps) ++ (X ++ " seconds)".data))) = some f := by
  unfold extractTiming
  have hns : hasSub (p :: ps) (ps ++ (X ++ " seconds)".data)) = false := by
    apply hasSub_false_of_head_notMem
    intro hmem
    exact hp p hmem rfl
  rw [afterLast_last_occurrence u hns]
  simp only [Option.getD_some]
  rw [stripTiming_numeral hne hX, hparse]

/-- A `No rows affected (X seconds)` line contributes exactly the parse
of `X`. -/
lemma stdoutLineDelta_norows (u X : List Char) (f : Frac) (hne : X ≠ [])
    (hX : ∀ c ∈ X, numChar c = true) (hparse : parsePyFloat X = some f) :
    stdoutLineDelta (u ++ (norowsOpen ++ (X ++ " seconds)".data))) = .add f := by
  have hphrase : hasSub norowsPhrase
      (u ++ (norowsOpen ++ (X ++ " seconds)".data))) = true := by
    apply hasSub_append_left
    apply hasSub_of_leadsWith
    rw [show norowsOpen ++ (X ++ " seconds)".data)
        = norowsPhrase ++ ([' ', '('] ++ (X ++ " seconds)".data)) from by
      rw [show norowsOpen = norowsPhrase ++ [' ', '('] from by decide]
      simp]
    exact leadsWith_append _ _
  have hext : extractTiming norowsOpen
      (u ++ (norowsOpen ++ (X ++ " seconds)".data))) = some f := by
    rw [show norowsOpen = 'N' :: "o rows affected (".data from by decide]
    refine timing_line_extract u X f hne hX ?_ hparse
    intro c hc
    rcases List.mem_append.1 hc with h | h
    · intro e; subst e; exact absurd h (by decide)
    · rcases List.mem_append.1 h with h | h
      · exact ne_of_numChar (hX c h) (by decide)
      · intro e; subst e; exact absurd h (by decide)
  unfold stdoutLineDelta
  rw [if_pos hphrase, hext]

/-- A `rows selected (X seconds)` line, on which the `No rows affected`
branch does not fire, contributes exactly the parse of `X`. -/
lemma stdoutLineDelta_rowsel (u X : List Char) (f : Frac) (hne : X ≠ [])
    (hX : ∀ c ∈ X, numChar c = true) (hparse : parsePyFloat X = some f)
    (hno : hasSub norowsPhrase (u ++ (rowselOpen ++ (X ++ " seconds)".data))) = false) :
    stdoutLineDelta (u ++ (rowselOpen ++ (X ++ " seconds)".data))) = .add f := by
  have hphrase : hasSub rowselPhrase
      (u ++ (rowselOpen ++ (X ++ " seconds)".data))) = true := by
    apply hasSub_append_left
    apply hasSub_of_leadsWith
    rw [show rowselOpen ++ (X ++ " seconds)".data)
        = rowselPhrase ++ ([' ', '('] ++ (X ++ " seconds)".data)) from by
      rw [show rowselOpen = rowselPhrase ++ [' ', '('] from by decide]
      simp]
    exact leadsWith_append _ _
  have hext : extractTiming rowselOpen
      (u ++ (rowselOpen ++ (X ++ " seconds)".data))) = some f := by
    rw [show rowselOpen = 'r' :: "ows selected (".data from by decide]
    refine timing_line_extract u X f hne hX ?_ hparse
    intro c hc
    rcases List.mem_append.1 hc with h | h
    · intro e; subst e; exact absurd h (by decide)
    · rcases List.mem_append.1 h with h | h
      · exact ne_of_numChar (hX c h) (by decide)
      · intro e; subst e; exact absurd h (by decide)
  unfold stdoutLineDelta
  rw [if_neg (by simp [hno]), if_pos hphrase, hext]

/-- A line containing `No rows affected` but no `No rows affected (`
crashes: the scrape keeps the phrase's `N` (not in the strip set, not
whitespace), which no float literal may contain. -/
lemma stdoutLineDelta_norows_crash {l : List Char}
    (h1 : hasSub norowsPhrase l = true) (h2 : hasSub norowsOpen l = false) :
    stdoutLineDelta l = .crash := by
  have hN : 'N' ∈ l := by
    have h1' : hasSub ('N' :: "o rows affected".data) l = true := by
      rw [show ('N' :: "o rows affected".data) = norowsPhrase from by decide]
      exact h1
    exact mem_of_hasSub_cons h1'
  have hAL : afterLast norowsOpen l = none := afterLast_none_iff.2 h2
  have hstrip : 'N' ∈ stripTiming l := by
    unfold stripTiming
    exact mem_stripBoth (by decide) hN
  have hparse : parsePyFloat (stripTiming l) = none :=
    parsePyFloat_none_of_bad (by decide) (by decide) (by decide) (by decide)
      (by decide) (by decide) (by decide) hstrip
  unfold stdoutLineDelta
  rw [if_pos h1]
  unfold extractTiming
  rw [hAL]
  simp only [Option.getD_none]
  rw [hparse]

/-- A line containing `rows selected` but neither `No rows affected` nor
`rows selected (` crashes: the scrape keeps the phrase's `r`. -/
lemma stdoutLineDelta_rowsel_crash {l : List Char}
    (hno : hasSub norowsPhrase l = false)
    (h1 : hasSub rowselPhrase l = true) (h2 : hasSub rowselOpen l = false) :
    stdoutLineDelta l = .crash := by
  have hr : 'r' ∈ l := by
    have h1' : hasSub ('r' :: "ows selected".data) l = true := by
      rw [show ('r' :: "ows selected".data) = rowselPhrase from by decide]
      exact h1
    exact mem_of_hasSub_cons h1'
  have hAL : afterLast rowselOpen l = none := afterLast_none_iff.2 h2
  have hstrip : 'r' ∈ stripTiming l := by
    unfold stripTiming
    exact mem_stripBoth (by decide) hr
  have hparse : parsePyFloat (stripTiming l) = none :=
    parsePyFloat_none_of_bad (by decide) (by decide) (by decide) (by decide)
      (by decide) (by decide) (by decide) hstrip
  unfold stdoutLineDelta
  rw [if_neg (by simp [hno]), if_pos h1]
  unfold extractTiming
  rw [hAL]
  simp only [Option.getD_none]
  rw [hparse]

/-- A newline-free capture splits into a single line. -/
lemma splitNL_single {l : List Char} (h : ∀ c ∈ l, (c == '\n') = false) :
    splitNL l = [l] := by
  induction l with
  | nil => rfl
  | cons c cs ih =>
    unfold splitNL
    rw [ih (fun x hx => h x (List.mem_cons_of_mem _ hx))]
    simp only [h c (by simp), Bool.false_eq_true, if_false]

/-- A capture consisting of exactly one well-formed `rows selected
(X seconds)` line (no newline, value nonzero) yields the metric
`0 + X`. -/
lemma analyzeOutput_single_rowsel (s : String) (u X : List Char) (f : Frac)
    (hshape : s.data = u ++ (rowselOpen ++ (X ++ " seconds)".data)))
    (hnl : ∀ c ∈ s.data, (c == '\n') = false)
    (hno : hasSub norowsPhrase s.data = false)
    (hne : X ≠ []) (hX : ∀ c ∈ X, numChar c = true)
    (hparse : parsePyFloat X = some f) (hfz : f.num ≠ 0) :
    analyzeOutput s "" = .metric (Frac.zero.add f) := by
  have hsne : (s == "") = false := by
    cases hb : (s == "") with
    | false => rfl
    | true =>
      have hs0 : s = "" := beq_iff_eq.1 hb
      rw [hs0] at hshape
      rw [show ("" : String).data = [] from rfl] at hshape
      rw [show rowselOpen = 'r' :: "ows selected (".data from by decide] at hshape
      simp at hshape
  have hdelta : stdoutLineDelta s.data = .add f := by
    rw [hshape]
    refine stdoutLineDelta_rowsel u X f hne hX hparse ?_
    rw [← hshape]
    exact hno
  have hlines : linesOf s = [s.data] := by
    unfold linesOf
    rw [hsne]
    simp only [Bool.false_eq_true, if_false]
    exact splitNL_single hnl
  have hscan : scanStdout Frac.zero (linesOf s) = some (Frac.zero.add f) := by
    rw [hlines]
    simp only [scanStdout, hdelta]
  have hiz : (Frac.zero.add f).isZero = false := by
    have hnum : (Frac.zero.add f).num = f.num := by simp [Frac.add, Frac.zero]
    unfold Frac.isZero
    rw [hnum]
    exact beq_eq_false_iff_ne.2 hfz
  unfold analyzeOutput
  simp only [hscan]
  rw [show linesOf "" = [] from rfl]
  simp only [scanStderr]
  rw [if_neg (by simp [hiz])]

/-! ## Zero-valued scans -/

lemma scanStdout_zeroNum :
    ∀ (ls : List (List Char)) (acc : Frac), acc.num = 0 →
      (∀ l ∈ ls, zeroDelta (stdoutLineDelta l) = true) →
      ∃ t, scanStdout acc ls = some t ∧ t.num = 0 := by
  intro ls
  induction ls with
  | nil =>
    intro acc ha _
    exact ⟨acc, rfl, ha⟩
  | cons l ls ih =>
    intro acc ha h
    have hl : zeroDelta (stdoutLineDelta l) = true := h l (by simp)
    have hrest : ∀ x ∈ ls, zeroDelta (stdoutLineDelta x) = true :=
      fun x hx => h x (List.mem_cons_of_mem _ hx)
    simp only [scanStdout]
    cases hd : stdoutLineDelta l with
    | skip => exact ih acc ha hrest
    | add f =>
      rw [hd] at hl
      have hf : f.num = 0 := by simpa [zeroDelta] using hl
      have : (acc.add f).num = 0 := by simp [Frac.add, ha, hf]
      exact ih (acc.add f) this hrest
    | crash =>
      rw [hd] at hl
      exact absurd hl (by simp [zeroDelta])

lemma scanStderr_zeroNum :
    ∀ (ls : List (List Char)) (acc : Frac), acc.num = 0 →
      (∀ l ∈ ls, zeroDeltaErr (stderrLineDelta l) = true) →
      ∃ t, scanStderr acc ls = .total t ∧ t.num = 0 := by
  intro ls
  induction ls with
  | nil =>
    intro acc ha _
    exact ⟨acc, rfl, ha⟩
  | cons l ls ih =>
    intro acc ha h
    have hl : zeroDeltaErr (stderrLineDelta l) = true := h l (by simp)
    have hrest : ∀ x ∈ ls, zeroDeltaErr (stderrLineDelta x) = true :=
      fun x hx => h x (List.mem_cons_of_mem _ hx)
    simp only [scanStderr]
    cases hd : stderrLineDelta l with
    | skip => exact ih acc ha hrest
    | add f =>
      rw [hd] at hl
      have hf : f.num = 0 := by simpa [zeroDeltaErr] using hl
      have : (acc.add f).num = 0 := by simp [Frac.add, ha, hf]
      exact ih (acc.add f) this hrest
    | fatal =>
      rw [hd] at hl
      exact absurd hl (by simp [zeroDeltaErr])
    | crash =>
      rw [hd] at hl
      exact absurd hl (by simp [zeroDeltaErr])

/-! ## Claim theorems -/

/-- C2 counterexample: a stderr stream whose second line carries the
authentication marker, preceded by a line that contains a timing phrase
without a parseable value.  The scan crashes with `ValueError` on the
first line, so the run ends with an un-handled exception (process exit
code 1) — not with the claimed fatal classification and exit code 2. -/
theorem fatal_marker_preempted_by_parse_crash :
    analyzeOutput "" "No rows affected\nfoo javax.naming.AuthenticationException"
      = ROut.pyError PyErr.valueErrorFloat
    ∧ ROut.pyError PyErr.valueErrorFloat ≠ ROut.exit2fatal
    ∧ exitCodeOf (ROut.pyError PyErr.valueErrorFloat) = 1 := by
  exact ⟨by decide, by decide, rfl⟩

/-- C2 amended: provided the stdout scan completes and every marker-free
stderr line BEFORE the marker line scans without a parse crash, the
presence of a fatal marker on a stderr line makes the run exit fatally
with code 2, regardless of the timing data accumulated before it and of
the content — well-formed or malformed — of every line after it:
nothing past the marker is examined, since the scan stops there. -/
theorem fatal_marker_exits_critical (out err : String) (a : Frac)
    (pre post : List (List Char)) (m : List Char)
    (h1 : scanStdout Frac.zero (linesOf out) = some a)
    (h2 : linesOf err = pre ++ m :: post)
    (h3 : markerHit m = true)
    (h4 : ∀ x ∈ pre, markerHit x = false → stderrLineDelta x ≠ .crash) :
    analyzeOutput out err = .exit2fatal ∧ exitCodeOf ROut.exit2fatal = 2 := by
  have hf : scanStderr a (linesOf err) = .fatalStop := by
    rw [h2]
    exact scanStderr_fatal_prefix pre m post a h3 h4
  refine ⟨?_, rfl⟩
  unfold analyzeOutput
  simp only [h1, hf]

/-- C2 witness: a marker line following a valid timing line and
FOLLOWED by a malformed timing line still exits fatally — the
accumulated 2 seconds are discarded and the malformed third line is
never accumulated (it would otherwise crash the scan). -/
theorem fatal_marker_exits_critical_example :
    analyzeOutput ""
      "5 rows selected (2 seconds)\nError: javax.naming.AuthenticationException: bad\nNo rows affected"
      = ROut.exit2fatal :=
  (fatal_marker_exits_critical ""
    "5 rows selected (2 seconds)\nError: javax.naming.AuthenticationException: bad\nNo rows affected"
    Frac.zero ["5 rows selected (2 seconds)".data]
    ["No rows affected".data]
    "Error: javax.naming.AuthenticationException: bad".data
    (by decide) (by decide) (by decide) (by decide)).1

/-- C3 (confirmed): when every line of both streams leaves the
accumulator untouched — it matches no timing pattern, or carries a
well-formed timing value that is literally zero (the genuinely
zero-duration query) — the accumulated total is exactly zero and the
run is classified as "no performance data gathered" with exit code 2,
regardless of non-matching noise lines.  On exactly these runs the
program's binary64 `perfstat` is also exactly `0.0` (it is never
updated, or only ever has exact `±0.0` added), so the hypothesis
denotes the program's `perfstat == 0`; exact-zero totals produced by
cancellation of rounded doubles are not covered, as they depend on
IEEE-754 rounding the rational embedding does not model. -/
theorem zero_total_reports_no_data (out err : String)
    (h1 : ∀ l ∈ linesOf out, zeroDelta (stdoutLineDelta l) = true)
    (h2 : ∀ l ∈ linesOf err, zeroDeltaErr (stderrLineDelta l) = true) :
    analyzeOutput out err = .exit2nodata ∧ exitCodeOf ROut.exit2nodata = 2 := by
  obtain ⟨a, ha, hanum⟩ := scanStdout_zeroNum (linesOf out) Frac.zero rfl h1
  obtain ⟨t, ht, htnum⟩ := scanStderr_zeroNum (linesOf err) a hanum h2
  have hz : t.isZero = true := by simp [Frac.isZero, htnum]
  refine ⟨?_, rfl⟩
  unfold analyzeOutput
  simp only [ha, ht]
  rw [if_pos hz]

/-- C3 witness: noise lines plus a genuinely zero-duration timing line
still give the no-data exit. -/
theorem zero_total_reports_no_data_example :
    analyzeOutput "Connecting to jdbc\n0 rows affected (0.0 seconds)" "SLF4J: warning"
      = ROut.exit2nodata :=
  (zero_total_reports_no_data "Connecting to jdbc\n0 rows affected (0.0 seconds)"
    "SLF4J: warning" (by decide) (by decide)).1

/-- C4 counterexample: with both an inline query and a query file the
program does abort immediately with no external call, but through
`sys.exit("Cannot specify both a query and a file")`, whose process exit
code is 1 — not the claimed configuration-error code 3. -/
theorem both_query_and_file_exit_code :
    mainRun
      ⟨none, some "c.txt", "default", some "q.hql", some "hive1", none, "ssl",
        some "10001", some "select 1", none, none, "10", "20"⟩
      ⟨["u", "p"], 0, 0, .done "" ""⟩
      = ([], ROut.exitMsg "Cannot specify both a query and a file")
    ∧ exitCodeOf (ROut.exitMsg "Cannot specify both a query and a file") = 1
    ∧ (1 : ℕ) ≠ 3 := by
  exact ⟨by decide, rfl, by decide⟩

/-- C4 amended: for every invocation supplying both an inline query and
a query file, the process aborts immediately via the message form of
`sys.exit` — process exit code 1 (not 3) — without spawning any
subprocess. -/
theorem both_query_and_file_aborts (a : Args) (env : SysEnv)
    (h1 : truthy a.query = true) (h2 : truthy a.filename = true) :
    mainRun a env = ([], .exitMsg "Cannot specify both a query and a file")
    ∧ exitCodeOf (ROut.exitMsg "Cannot specify both a query and a file") = 1 := by
  refine ⟨?_, rfl⟩
  unfold mainRun
  rw [h1, h2]
  rfl

/-- C4 witness. -/
theorem both_query_and_file_aborts_example :
    mainRun
      ⟨none, none, "default", some "b.hql", some "h2", none, "kerberos",
        none, some "select 2", none, some "u2", "", ""⟩
      ⟨[], 1, 1, .done "x" "y"⟩
      = ([], .exitMsg "Cannot specify both a query and a file") :=
  (both_query_and_file_aborts _ _ (by decide) (by decide)).1

/-- C5 counterexample: the line `No rows affected` contains the timing
phrase but no parenthesized value; the claim says it must not contribute
and must not crash (so this output would exit as "no data"), but the
code crashes with `ValueError` inside `float` (un-handled, process exit
code 1). -/
theorem phrase_without_value_crashes :
    analyzeOutput "No rows affected" "" = ROut.pyError PyErr.valueErrorFloat
    ∧ ROut.pyError PyErr.valueErrorFloat ≠ ROut.exit2nodata
    ∧ exitCodeOf (ROut.pyError PyErr.valueErrorFloat) ≠ 2 := by
  exact ⟨by decide, by decide, by decide⟩

/-- C5 amended: a line is examined if and only if it merely contains one
of the literal phrases: a line containing neither phrase contributes
nothing (universally); every line of shape
`u ++ "PHRASE (" ++ X ++ " seconds)"` with `X` a decimal numeral whose
parse succeeds contributes exactly the value of `X` (universally, for
both phrases); a single such line as the whole capture yields metric
`0 + X`; and a line containing a phrase but no following `PHRASE (`
raises an un-handled `ValueError` instead of being skipped (universally,
for both phrases). -/
theorem line_matching_and_extraction :
    (∀ l : List Char, hasSub norowsPhrase l = false → hasSub rowselPhrase l = false →
      stdoutLineDelta l = .skip)
    ∧ (∀ (u X : List Char) (f : Frac), X ≠ [] → (∀ c ∈ X, numChar c = true) →
      parsePyFloat X = some f →
      stdoutLineDelta (u ++ (norowsOpen ++ (X ++ " seconds)".data))) = .add f)
    ∧ (∀ (u X : List Char) (f : Frac), X ≠ [] → (∀ c ∈ X, numChar c = true) →
      parsePyFloat X = some f →
      hasSub norowsPhrase (u ++ (rowselOpen ++ (X ++ " seconds)".data))) = false →
      stdoutLineDelta (u ++ (rowselOpen ++ (X ++ " seconds)".data))) = .add f)
    ∧ (∀ l : List Char, hasSub norowsPhrase l = true → hasSub norowsOpen l = false →
      stdoutLineDelta l = .crash)
    ∧ (∀ l : List Char, hasSub norowsPhrase l = false → hasSub rowselPhrase l = true →
      hasSub rowselOpen l = false → stdoutLineDelta l = .crash)
    ∧ (∀ (s : String) (u X : List Char) (f : Frac),
      s.data = u ++ (rowselOpen ++ (X ++ " seconds)".data)) →
      (∀ c ∈ s.data, (c == '\n') = false) →
      hasSub norowsPhrase s.data = false →
      X ≠ [] → (∀ c ∈ X, numChar c = true) →
      parsePyFloat X = some f → f.num ≠ 0 →
      analyzeOutput s "" = .metric (Frac.zero.add f)) := by
  refine ⟨?_, ?_, ?_, ?_, ?_, ?_⟩
  · intro l h1 h2
    unfold stdoutLineDelta
    rw [h1, h2]
    rfl
  · intro u X f hne hX hparse
    exact stdoutLineDelta_norows u X f hne hX hparse
  · intro u X f hne hX hparse hno
    exact stdoutLineDelta_rowsel u X f hne hX hparse hno
  · intro l h1 h2
    exact stdoutLineDelta_norows_crash h1 h2
  · intro l hno h1 h2
    exact stdoutLineDelta_rowsel_crash hno h1 h2
  · intro s u X f hshape hnl hno hne hX hparse hfz
    exact analyzeOutput_single_rowsel s u X f hshape hnl hno hne hX hparse hfz

/-- C5 witness: a noise line skips; `1 rows selected (2.5 seconds)`
contributes exactly 25/10 = 2.5 and alone yields that metric;
`No rows affected` crashes. -/
theorem line_matching_and_extraction_example :
    stdoutLineDelta "Connecting to jdbc:hive2".data = LineDelta.skip
    ∧ stdoutLineDelta ("1 ".data ++ (rowselOpen ++ ("2.5".data ++ " seconds)".data)))
        = LineDelta.add ⟨25, 10⟩
    ∧ "1 ".data ++ (rowselOpen ++ ("2.5".data ++ " seconds)".data))
        = "1 rows selected (2.5 seconds)".data
    ∧ analyzeOutput "1 rows selected (2.5 seconds)" ""
        = ROut.metric (Frac.zero.add ⟨25, 10⟩)
    ∧ stdoutLineDelta "No rows affected".data = LineDelta.crash :=
  ⟨line_matching_and_extraction.1 _ (by decide) (by decide),
   line_matching_and_extraction.2.2.1 "1 ".data "2.5".data ⟨25, 10⟩
     (by decide) (by decide) (by decide) (by decide),
   by decide,
   line_matching_and_extraction.2.2.2.2.2 "1 rows selected (2.5 seconds)"
     "1 ".data "2.5".data ⟨25, 10⟩ (by decide) (by decide) (by decide)
     (by decide) (by decide) (by decide) (by decide),
   line_matching_and_extraction.2.2.2.1 _ (by decide) (by decide)⟩

/-- C6 counterexample: a Kerberos-mode invocation of
`sqlline-service-check.py` with valid flags, a keytab, and a valid
ticket available.  The shipped file dies with `SyntaxError` at the
merge-conflict marker before executing anything: no external call is
made at all — in particular no ticket-status check ever runs —
contradicting "the program first verifies an existing valid ticket via
an external status check" for this program. -/
theorem service_check_dies_before_ticket_check :
    serviceMain
      ⟨some "ad.geisinger.edu", "kerberos", none, "default", none, some "hive1",
        some "/etc/krb5.keytab", some "10001", some "select 1",
        some "GEISINGER.EDU", some "monitor", "10", "20", "60"⟩
      ⟨[], 0, 0, .done "" ""⟩
      = ([], SOut.pyError PyErr.syntaxErrorMergeConflict)
    ∧ ExtCall.klistCall ∉
        (serviceMain
          ⟨some "ad.geisinger.edu", "kerberos", none, "default", none, some "hive1",
            some "/etc/krb5.keytab", some "10001", some "select 1",
            some "GEISINGER.EDU", some "monitor", "10", "20", "60"⟩
          ⟨[], 0, 0, .done "" ""⟩).1
    ∧ ExtCall.sqllineCall ∉
        (serviceMain
          ⟨some "ad.geisinger.edu", "kerberos", none, "default", none, some "hive1",
            some "/etc/krb5.keytab", some "10001", some "select 1",
            some "GEISINGER.EDU", some "monitor", "10", "20", "60"⟩
          ⟨[], 0, 0, .done "" ""⟩).1 := by
  exact ⟨rfl, by decide, by decide⟩

/-- C6 amended: `query-safety-check.py` behaves as the claim states —
`klist -s` runs first; when it succeeds no ticket-init happens; when it
fails with a keytab supplied, `kinit` runs with the username plus the
fixed realm suffix; a missing keytab or a failed `kinit` aborts before
any sqlline invocation.  `sqlline-service-check.py`, by contrast, never
performs any ticket step at all: its unresolved merge-conflict markers
make every invocation die with `SyntaxError` at parse time, before any
subprocess. -/
theorem kerberos_ticket_gating :
    (∀ (content : List String) (kn : Int) (comm : CommResult),
      (mainRun
        ⟨some "ad.geisinger.edu", none, "default", none, some "hive1",
          some "/etc/krb5.keytab", "kerberos", some "10001", some "select 1",
          some "GEISINGER.EDU", some "monitor", "10", "20"⟩
        ⟨content, 0, kn, comm⟩).1
      = [ExtCall.klistCall, ExtCall.sqllineCall])
    ∧ (∀ (content : List String) (s : Int) (comm : CommResult), s ≠ 0 →
      (mainRun
        ⟨some "ad.geisinger.edu", none, "default", none, some "hive1",
          some "/etc/krb5.keytab", "kerberos", some "10001", some "select 1",
          some "GEISINGER.EDU", some "monitor", "10", "20"⟩
        ⟨content, s, 0, comm⟩).1
      = [ExtCall.klistCall,
          ExtCall.kinitCall "/etc/krb5.keytab" "monitor@GEISINGER.EDU",
          ExtCall.sqllineCall])
    ∧ (∀ (content : List String) (s kn : Int) (comm : CommResult), s ≠ 0 →
      mainRun
        ⟨some "ad.geisinger.edu", none, "default", none, some "hive1",
          none, "kerberos", some "10001", some "select 1",
          some "GEISINGER.EDU", some "monitor", "10", "20"⟩
        ⟨content, s, kn, comm⟩
      = ([ExtCall.klistCall], .exitMsg "No kerberos ticket found and no keytab provided!"))
    ∧ (∀ (content : List String) (s t : Int) (comm : CommResult), s ≠ 0 → t ≠ 0 →
      mainRun
        ⟨some "ad.geisinger.edu", none, "default", none, some "hive1",
          some "/etc/krb5.keytab", "kerberos", some "10001", some "select 1",
          some "GEISINGER.EDU", some "monitor", "10", "20"⟩
        ⟨content, s, t, comm⟩
      = ([ExtCall.klistCall,
          ExtCall.kinitCall "/etc/krb5.keytab" "monitor@GEISINGER.EDU"],
          .exitMsg "Failed to kinit"))
    ∧ (∀ (a : SArgs) (env : SysEnv),
      serviceMain a env = ([], .pyError .syntaxErrorMergeConflict)) := by
  refine ⟨fun _ _ _ => rfl, ?_, ?_, ?_, fun _ _ => rfl⟩
  · intro content s comm hs
    simp [mainRun, credsLogic, kerbStage, probeRun, truthy, execSpawnB, preCheck,
      buildJdbc, hs]
  · intro content s kn comm hs
    simp [mainRun, credsLogic, credsErrOut, kerbStage, truthy, hs]
  · intro content s t comm hs ht
    simp [mainRun, credsLogic, credsErrOut, kerbStage, truthy, hs, ht]

/-- C6 witness. -/
theorem kerberos_ticket_gating_example :
    mainRun
      ⟨some "ad.geisinger.edu", none, "default", none, some "hive1",
        none, "kerberos", some "10001", some "select 1",
        some "GEISINGER.EDU", some "monitor", "10", "20"⟩
      ⟨[], 7, 0, .done "" ""⟩
      = ([ExtCall.klistCall], .exitMsg "No kerberos ticket found and no keytab provided!") :=
  kerberos_ticket_gating.2.2.1 [] 7 0 (.done "" "") (by decide)

/-- C7 counterexample: an interrupted wait with partial output
containing a perfectly parseable timing line.  The child is killed and
the output drained, but the result is the re-raised exception
(`commAbort`, process exit code 1), not the metric 1.5 that parsing the
partial output would give: the drained output is never parsed. -/
theorem timeout_partial_output_not_parsed :
    execRes
      ⟨none, "default", some "hive1", "ssl", "", PortV.given "10001",
        some "select 1", none, none, "u"⟩ .queryT
      (.interrupted "1 rows selected (1.5 seconds)" "" true)
      = ROut.pyError PyErr.commAbort
    ∧ analyzeOutput "1 rows selected (1.5 seconds)" "" = ROut.metric ⟨15, 10⟩
    ∧ ROut.pyError PyErr.commAbort ≠ ROut.metric ⟨15, 10⟩
    ∧ exitCodeOf (ROut.pyError PyErr.commAbort) = 1 := by
  exact ⟨by decide, by decide, by decide, rfl⟩

/-- C7 amended: when the wait on the child is interrupted and the child
is still running, the `finally` block kills it and re-drains the
streams, but the `except` block re-raises, so the run always ends with
the un-handled exception — the drained partial output is never analyzed
for timing data. -/
theorem timeout_kills_drains_raises (c : CheckCfg) (et : ExecType) (out err : String)
    (j : String) (hj : preCheck c et = .ok j) :
    execKilled c et (.interrupted out err true) = true
    ∧ execDrained c et (.interrupted out err true) = true
    ∧ execRes c et (.interrupted out err true) = .pyError .commAbort := by
  unfold execKilled execDrained execRes
  rw [hj]
  exact ⟨rfl, rfl, rfl⟩

/-- C7 witness. -/
theorem timeout_kills_drains_raises_example :
    execKilled
      ⟨none, "default", some "hive1", "ssl", "", PortV.given "10001",
        some "select 1", none, none, "u"⟩ .queryT
      (.interrupted "part out" "" true) = true :=
  (timeout_kills_drains_raises
    ⟨none, "default", some "hive1", "ssl", "", PortV.given "10001",
      some "select 1", none, none, "u"⟩ .queryT "part out" ""
    "\"jdbc:hive2://hive1:10001/;ssl=1;AuthMech=3\"" rfl).1

/-- C8 counterexample: `query-safety-check.py` accepts warning "10" and
critical "20" but never evaluates them: a computed metric of 25 — which
the claimed classification maps to CRITICAL (exit 2) — leaves the
process exiting with code 0. -/
theorem thresholds_ignored_by_query_safety :
    mainRun
      ⟨none, some "c.txt", "default", none, some "hive1", none, "ssl",
        some "10001", some "select 1", none, none, "10", "20"⟩
      ⟨["u", "p"], 0, 0, .done "1 rows selected (25 seconds)" ""⟩
      = ([ExtCall.sqllineCall], ROut.metric ⟨25, 1⟩)
    ∧ Frac.toRat ⟨25, 1⟩ = 25
    ∧ exitCodeOf (ROut.metric ⟨25, 1⟩) = 0
    ∧ classify "10" "20" ⟨25, 1⟩ = 2
    ∧ (0 : ℕ) ≠ 2 := by
  exact ⟨by decide, by norm_num [Frac.toRat], rfl, by decide, by decide⟩

/-- C8 amended: the monitoring-plugin range classification (modelled
from the spec, since it lives in the external nagiosplugin library used
by `sqlline-service-check.py`) classifies 15 as WARNING, 25 as CRITICAL
and 5 as OK for warning "10" / critical "20"; `query-safety-check.py`
itself never evaluates its threshold flags — every run that computes a
metric exits with code 0. -/
theorem classification_and_exit_codes :
    (∀ (a : Args) (env : SysEnv) (f : Frac), (mainRun a env).2 = .metric f →
      exitCodeOf (mainRun a env).2 = 0)
    ∧ classify "10" "20" ⟨15, 1⟩ = 1
    ∧ classify "10" "20" ⟨25, 1⟩ = 2
    ∧ classify "10" "20" ⟨5, 1⟩ = 0 := by
  refine ⟨?_, by decide, by decide, by decide⟩
  intro a env f h
  rw [h]
  rfl

/-- C8 witness. -/
theorem classification_and_exit_codes_example :
    exitCodeOf
      (mainRun
        ⟨none, some "c.txt", "default", none, some "hive1", none, "ssl",
          some "10001", some "select 1", none, none, "10", "20"⟩
        ⟨["u", "p"], 0, 0, .done "1 rows selected (25 seconds)" ""⟩).2 = 0 :=
  classification_and_exit_codes.1 _ _ ⟨25, 1⟩ (by decide)

/-- C9 counterexample: a Kerberos-mode invocation with neither query nor
file does crash un-handled at the check construction, but only after
spawning the `klist` ticket-status subprocess — so "no subprocess is
spawned on this path" is false as stated. -/
theorem kerberos_path_spawns_klist_before_crash :
    mainRun
      ⟨some "ad.geisinger.edu", none, "default", none, some "hive1",
        some "/etc/krb5.keytab", "kerberos", some "10001", none,
        some "GEISINGER.EDU", some "monitor", "10", "20"⟩
      ⟨[], 0, 0, .done "" ""⟩
      = ([ExtCall.klistCall], ROut.pyError PyErr.unboundQueryVars)
    ∧ ([ExtCall.klistCall] : List ExtCall) ≠ [] := by
  exact ⟨by decide, by decide⟩

/-- C9 amended: with neither an inline query nor a query file (and
otherwise valid flags) the run ends in the un-handled `NameError` from
referencing the never-assigned `query`/`queryfile` variables at the
check construction — an exception (process exit code 1), not an orderly
configuration-error exit — and the sqlline subprocess is never spawned;
non-Kerberos invocations spawn nothing at all, while Kerberos-mode
invocations spawn the ticket-status subprocess first. -/
theorem missing_query_source_crashes :
    (∀ (u p : String) (rest : List String) (kl kn : Int) (comm : CommResult),
      mainRun
        ⟨none, some "c.txt", "default", none, some "hive1", none, "ssl",
          some "10001", none, none, none, "10", "20"⟩
        ⟨u :: p :: rest, kl, kn, comm⟩
      = ([], .pyError .unboundQueryVars))
    ∧ (∀ (content : List String) (kn : Int) (comm : CommResult),
      mainRun
        ⟨some "ad.geisinger.edu", none, "default", none, some "hive1",
          some "/etc/krb5.keytab", "kerberos", some "10001", none,
          some "GEISINGER.EDU", some "monitor", "10", "20"⟩
        ⟨content, 0, kn, comm⟩
      = ([ExtCall.klistCall], .pyError .unboundQueryVars))
    ∧ exitCodeOf (ROut.pyError PyErr.unboundQueryVars) = 1 :=
  ⟨fun _ _ _ _ _ _ => rfl, fun _ _ _ => rfl, rfl⟩

/-- C10 (confirmed): whenever `execute_sqlline` returns a metric (rather
than exiting the process), that metric's value is nonzero — the
zero-total branch always exits with code 2 first. -/
theorem returned_metric_nonzero (out err : String) (f : Frac)
    (h : analyzeOutput out err = .metric f) : f.toRat ≠ 0 := by
  unfold analyzeOutput at h
  cases h1 : scanStdout Frac.zero (linesOf out) with
  | none => simp only [h1] at h; cases h
  | some acc =>
    simp only [h1] at h
    cases h2 : scanStderr acc (linesOf err) with
    | crashStop => simp only [h2] at h; cases h
    | fatalStop => simp only [h2] at h; cases h
    | total t =>
      simp only [h2] at h
      by_cases hz : t.isZero = true
      · rw [if_pos hz] at h; cases h
      · rw [if_neg hz] at h
        cases h
        have zden : 0 < Frac.zero.den := Nat.one_pos
        obtain ⟨hd1, _⟩ := scanStdout_sound _ _ _ zden h1
        obtain ⟨hd2, _⟩ := scanStderr_sound _ _ _ hd1 h2
        intro hc
        exact hz ((Frac.isZero_iff hd2).2 hc)

/-- C10 witness. -/
theorem returned_metric_nonzero_example : Frac.toRat ⟨15, 10⟩ ≠ 0 :=
  returned_metric_nonzero "0 rows selected (1.5 seconds)" "" ⟨15, 10⟩ (by decide)

end SqllineCheck
